import Mathlib

set_option maxHeartbeats 1000000

/-! Shallow embedding of the `ai-talk-travel-agent` interview flow: the
interview state machine of `src/travel_agent.py` (`process_user_response`,
`run_travel_agent_with_input`, `generate_travel_summary`,
`analyze_feedback_sentiment`, `reset_agent_state`) and the `/travel-agent`
turn handler of `src/main.py` (`travel_agent`).  The only external effect,
the Perplexity HTTP call, is modelled by an explicit environment value
describing the call's outcome; everything else is pure. -/

/-- Python's `str.lower` restricted to the alphabets this program actually
uses: ASCII letters and Cyrillic (А..Я to а..я, Ё to ё).  All keyword lists
in the source are ASCII or Cyrillic, so this agrees with Python wherever the
program's substring tests can be affected.  Other characters are unchanged. -/
def pyLowerChar (c : Char) : Char :=
  let n := c.toNat
  if 65 ≤ n ∧ n ≤ 90 then Char.ofNat (n + 32)
  else if 1040 ≤ n ∧ n ≤ 1071 then Char.ofNat (n + 32)
  else if n = 1025 then Char.ofNat 1105
  else c

/-- Python's `str.lower` applied characterwise (see `pyLowerChar`). -/
def pyLower (s : String) : String := ⟨s.data.map pyLowerChar⟩

/-- Python's substring test: `StrIncl p s` means `p in s` holds in Python,
i.e. the characters of `p` occur contiguously inside `s`. -/
def StrIncl (p s : String) : Prop := List.IsInfix p.data s.data

instance (p s : String) : Decidable (StrIncl p s) :=
  List.decidableInfix p.data s.data

/-- Boolean form of `StrIncl`, used where the source evaluates `p in s`. -/
def strContains (hay needle : String) : Bool := decide (StrIncl needle hay)

/-- The `user_responses` dictionary of `travel_agent.py`.  Exactly seven keys
are ever written (`trip_type`, `destination`, `group_size`, `travel_dates`,
`departure_city`, `feedback`, `human_agent_request`); an absent key is
`none`. -/
structure Answers where
  trip_type : Option String := none
  destination : Option String := none
  group_size : Option String := none
  travel_dates : Option String := none
  departure_city : Option String := none
  feedback : Option String := none
  human_agent_request : Option String := none
deriving DecidableEq, Repr

/-- The global `agent_state` dictionary of `travel_agent.py` (lines 29-37). -/
structure AgentState where
  current_goal : Nat
  user_responses : Answers
  error_count : Nat
  max_errors : Nat
  goal_completed : Bool
  conversation_active : Bool
  has_asked_goal_1 : Bool
deriving DecidableEq, Repr

/-- The module-level initial value of `agent_state` (travel_agent.py 29-37). -/
def initial_agent_state : AgentState :=
  { current_goal := 1, user_responses := {}, error_count := 0, max_errors := 3,
    goal_completed := false, conversation_active := true,
    has_asked_goal_1 := false }

/-- The state installed by `reset_agent_state()` (travel_agent.py 39-54). -/
def reset_agent_state : AgentState :=
  { current_goal := 1, user_responses := {}, error_count := 0, max_errors := 3,
    goal_completed := false, conversation_active := true,
    has_asked_goal_1 := false }

/-- One entry of the `Memory` transcript (`game.core.Memory` items). -/
structure MemoryItem where
  type : String
  content : String
deriving DecidableEq, Repr

/-- Outcome of the single HTTP POST to the Perplexity API, as distinguished
by the `try`/`except` branches of `get_perplexity_recommendations`
(travel_agent.py 224-249): a 200 response with its content, a non-200 status
with its body, a `requests.exceptions.Timeout`, another
`requests.exceptions.RequestException`, or any other exception. -/
inductive RecOutcome where
  | ok (content : String)
  | badStatus (code : Nat) (body : String)
  | timeout
  | requestError (msg : String)
  | unexpectedError (msg : String)
deriving DecidableEq, Repr

/-- External world seen by `get_perplexity_recommendations`: the
`PERPLEXITY_API_KEY` environment variable (`none` when unset or empty), the
outcome of the HTTP call, and the debug listing of environment variable
names built on line 180. -/
structure PerplexityEnv where
  apiKey : Option String
  outcome : RecOutcome
  debugInfo : String
deriving DecidableEq, Repr

/-- Embedding of `get_perplexity_recommendations` (travel_agent.py 156-249).
The five trip attributes only shape the outgoing prompt, never the returned
string, which is determined by the API-key check and the call outcome.  Each
branch below is the corresponding `return` of the source. -/
def get_perplexity_recommendations (env : PerplexityEnv)
    (trip_type destination group_size travel_dates departure_city : String) :
    String :=
  match env.apiKey with
  | none =>
      "❌ API ключ не найден. Пожалуйста, проверьте настройки.\n" ++
        env.debugInfo
  | some _ =>
      match env.outcome with
      | .ok content =>
          "🎯 РЕКОМЕНДАЦИИ ОТ ПРОФЕССИОНАЛЬНОГО ТУРАГЕНТА:\n\n" ++ content
      | .badStatus code body =>
          "❌ Ошибка API: " ++ toString code ++ " - " ++ body
      | .timeout =>
          "❌ Превышено время ожидания ответа от API. Попробуйте позже."
      | .requestError msg =>
          "❌ Ошибка соединения с API: " ++ msg
      | .unexpectedError msg =>
          "❌ Неожиданная ошибка: " ++ msg

/-- The string `"=" * 60` used as a separator in the summary. -/
def eq60 : String := ⟨List.replicate 60 '='⟩

/-- The trip-type `if`/`elif` chain of `generate_travel_summary`
(travel_agent.py 263-277).  Returns the pair
(`trip_type_display`, line appended to the summary). -/
def trip_type_branch (trip_type : String) : String × String :=
  if trip_type = "2" ∨ StrIncl "organized" (pyLower trip_type) then
    ("Организованный туризм с использованием услуг туроператора",
     "• Вы выбрали: Организованный туризм с использованием услуг туроператора\n")
  else if trip_type = "1" ∨ StrIncl "independent" (pyLower trip_type) then
    ("Самостоятельная поездка",
     "• Вы выбрали: Самостоятельная поездка\n")
  else if trip_type = "3" ∨ StrIncl "business" (pyLower trip_type) then
    ("Командировка",
     "• Вы выбрали: Командировка\n")
  else
    (trip_type, "• Тип поездки: " ++ trip_type ++ "\n")

/-- Embedding of `generate_travel_summary` (travel_agent.py 252-312).  The
`try`/`except` wrapper around the recommendation call (lines 300-307) is
dead in the embedding exactly as its handler is unreachable in the source:
`get_perplexity_recommendations` catches every exception internally and
always returns a string, so the summary builder is total. -/
def generate_travel_summary (env : PerplexityEnv) (responses : Answers) :
    String :=
  let trip_type := responses.trip_type.getD "Not specified"
  let tb := trip_type_branch trip_type
  let destination := responses.destination.getD "Not specified"
  let group_size := responses.group_size.getD "Not specified"
  let travel_dates := responses.travel_dates.getD "Not specified"
  let departure_city := responses.departure_city.getD "Not specified"
  "Уважаемый турист, вы ввели следующую информацию:\n\n"
    ++ tb.2
    ++ ("• Место назначения: " ++ destination ++ "\n")
    ++ ("• Количество человек: " ++ group_size ++ "\n")
    ++ ("• Даты поездки: " ++ travel_dates ++ "\n")
    ++ ("• Город отправления: " ++ departure_city ++ "\n")
    ++ ("\n" ++ eq60 ++ "\n🔍 ИЩЕМ, ДУМАЕМ, ЛОВИМ СЛОТЫ...\n" ++ eq60 ++ "\n\n")
    ++ get_perplexity_recommendations env tb.1 destination group_size
        travel_dates departure_city
    ++ ("\n" ++ eq60 ++ "\nЖелаю вам счастливого пути! 🎉")

/-- Prompt of `ask_trip_type` (travel_agent.py 105-118). -/
def ask_trip_type : String :=
  "Какую поездку вы планируете?

Выберите один из следующих вариантов:
1) Самостоятельная поездка — вы всё организуете сами
2) Организованный туризм — воспользуйтесь услугами туроператора (рекомендуется)
3) Деловая поездка

Укажите номер (1, 2 или 3) или полное название варианта."

/-- Prompt of `ask_destination` (travel_agent.py 121-127). -/
def ask_destination : String :=
  "Какую страну, город или курорт вы хотели бы посетить? Укажите конкретное место назначения."

/-- Prompt of `ask_group_size` (travel_agent.py 130-136). -/
def ask_group_size : String :=
  "Сколько человек планирует отправиться в эту поездку? Укажите, пожалуйста, количество путешественников."

/-- Prompt of `ask_travel_dates` (travel_agent.py 139-145). -/
def ask_travel_dates : String :=
  "На какие приблизительные даты вы планируете поездку? Укажите конкретные даты или диапазон дат."

/-- Prompt of `ask_departure_city` (travel_agent.py 148-154). -/
def ask_departure_city : String :=
  "Из какого города или ближайшего крупного города вы планируете начать путешествие? Укажите, пожалуйста, город отправления."

/-- Prompt of `ask_user_feedback` (travel_agent.py 355-370). -/
def ask_user_feedback : String :=
  "Спасибо за предоставленную информацию! 

Я подготовил для вас подробные рекомендации по путешествию на основе ваших предпочтений.

Пожалуйста, оцените, насколько вам понравились предложенные рекомендации:

• Если вам понравилось - напишите что-то вроде \"хорошо\", \"здорово\", \"супер\", \"круто\", \"нравится\"
• Если что-то не понравилось - напишите \"не очень\", \"не нравится\" или укажите конкретные проблемы

Ваша обратная связь поможет нам улучшить сервис!"

/-- Prompt of `analyze_negative_feedback` (travel_agent.py 373-388). -/
def analyze_negative_feedback : String :=
  "Понимаю, что рекомендации не полностью соответствуют вашим ожиданиям.

Помогите нам улучшить сервис! Расскажите подробнее:

• Что именно вам не понравилось в рекомендациях?
• Какая информация была неточной или неактуальной?
• Что бы вы хотели изменить или добавить?
• Есть ли конкретные требования, которые мы не учли?

Ваши комментарии помогут нам сделать сервис лучше для будущих пользователей."

/-- Prompt of `offer_human_agent_connection` (travel_agent.py 391-409). -/
def offer_human_agent_connection : String :=
  "Отлично! Рад, что рекомендации вам понравились! 🎉

Если у вас есть дополнительные вопросы или вы хотите получить более персонализированную помощь, я могу связать вас с нашим живым турагентом.

Наш специалист поможет вам:
• Уточнить детали поездки
• Забронировать отели и билеты
• Ответить на любые вопросы о путешествии
• Предоставить персональные рекомендации

Хотите ли вы связаться с нашим турагентом? Напишите \"да\" или \"нет\".

Спасибо за использование нашего сервиса! ✈️"

/-- Fallback emitted when `current_goal` is outside 1..8
(travel_agent.py 572). -/
def session_completed_message : String :=
  "Travel planning session completed. Thank you!"

/-- Clarification sent on neutral feedback (travel_agent.py 624). -/
def neutral_clarification : String :=
  "Пожалуйста, уточните ваше мнение. Вам понравились рекомендации или есть что-то, что нужно улучшить?"

/-- Closing message of the affirmative branch at goal 8
(travel_agent.py 639). -/
def human_agent_yes_close : String :=
  "Отлично! Наш турагент свяжется с вами в ближайшее время. Спасибо за использование нашего сервиса! ✈️"

/-- Closing message of the non-affirmative branch at goal 8
(travel_agent.py 641). -/
def human_agent_no_close : String :=
  "Спасибо за использование нашего сервиса! Если у вас возникнут вопросы, мы всегда готовы помочь. Удачного путешествия! 🎉"

/-- The `positive_words` list of `analyze_feedback_sentiment`
(travel_agent.py 326-331). -/
def positive_words : List String :=
  ["хорошо", "здорово", "супер", "круто", "нравится", "отлично",
   "прекрасно", "замечательно", "великолепно", "потрясающе",
   "спасибо", "благодарю", "понравилось", "подходит", "устраивает",
   "да", "согласен", "принимаю", "беру"]

/-- The `negative_words` list of `analyze_feedback_sentiment`
(travel_agent.py 334-339); the source literally repeats
"не подходит" three times, which the embedding keeps. -/
def negative_words : List String :=
  ["не очень", "не нравится", "говно", "лажа", "плохо", "ужасно",
   "не подходит", "не устраивает", "не то", "неправильно",
   "неверно", "неточно", "неактуально", "не подходит", "не подходит",
   "не", "нет", "отказываюсь", "не хочу", "не буду"]

/-- Embedding of `analyze_feedback_sentiment` (travel_agent.py 314-352):
lower-case the text, count the listed keywords occurring as substrings
(each list entry contributes at most 1), compare the two counts. -/
def analyze_feedback_sentiment (user_feedback : String) : String :=
  let feedback_lower := pyLower user_feedback
  let positive_count :=
    positive_words.countP (fun word => strContains feedback_lower word)
  let negative_count :=
    negative_words.countP (fun word => strContains feedback_lower word)
  if positive_count > negative_count then "positive"
  else if negative_count > positive_count then "negative"
  else "neutral"

/-- Embedding of `run_travel_agent_with_input` (travel_agent.py 540-576):
dispatch on `current_goal`, append the user input and the response to a
fresh transcript; at goal 1 remember that the first question was asked. -/
def run_travel_agent_with_input (env : PerplexityEnv) (s : AgentState)
    (user_input : String) : AgentState × List MemoryItem :=
  if s.current_goal = 1 then
    ({ s with has_asked_goal_1 := true },
     [⟨"user", user_input⟩, ⟨"assistant", ask_trip_type⟩])
  else if s.current_goal = 2 then
    (s, [⟨"user", user_input⟩, ⟨"assistant", ask_destination⟩])
  else if s.current_goal = 3 then
    (s, [⟨"user", user_input⟩, ⟨"assistant", ask_group_size⟩])
  else if s.current_goal = 4 then
    (s, [⟨"user", user_input⟩, ⟨"assistant", ask_travel_dates⟩])
  else if s.current_goal = 5 then
    (s, [⟨"user", user_input⟩, ⟨"assistant", ask_departure_city⟩])
  else if s.current_goal = 6 then
    (s, [⟨"user", user_input⟩,
         ⟨"assistant", generate_travel_summary env s.user_responses⟩])
  else if s.current_goal = 7 then
    (s, [⟨"user", user_input⟩, ⟨"assistant", ask_user_feedback⟩])
  else if s.current_goal = 8 then
    (s, [⟨"user", user_input⟩, ⟨"assistant", offer_human_agent_connection⟩])
  else
    (s, [⟨"user", user_input⟩, ⟨"assistant", session_completed_message⟩])

/-- Embedding of the shared tail of `process_user_response`
(travel_agent.py 646-654): when `current_goal <= 6`, advance the goal,
reset the error counter and set `has_asked_goal_1`; then answer with
`run_travel_agent_with_input("continue")`. -/
def advance_and_ask (env : PerplexityEnv) (s : AgentState) :
    AgentState × List MemoryItem :=
  let s' :=
    if s.current_goal ≤ 6 then
      { s with current_goal := s.current_goal + 1, error_count := 0,
               has_asked_goal_1 := true }
    else s
  run_travel_agent_with_input env s' "continue"

/-- Embedding of `process_user_response` (travel_agent.py 578-654). -/
def process_user_response (env : PerplexityEnv) (s : AgentState)
    (user_response : String) : AgentState × List MemoryItem :=
  if s.current_goal = 1 then
    advance_and_ask env { s with user_responses :=
      { s.user_responses with trip_type := some user_response } }
  else if s.current_goal = 2 then
    advance_and_ask env { s with user_responses :=
      { s.user_responses with destination := some user_response } }
  else if s.current_goal = 3 then
    advance_and_ask env { s with user_responses :=
      { s.user_responses with group_size := some user_response } }
  else if s.current_goal = 4 then
    advance_and_ask env { s with user_responses :=
      { s.user_responses with travel_dates := some user_response } }
  else if s.current_goal = 5 then
    advance_and_ask env { s with user_responses :=
      { s.user_responses with departure_city := some user_response } }
  else if s.current_goal = 7 then
    let s1 := { s with user_responses :=
      { s.user_responses with feedback := some user_response } }
    let sentiment := analyze_feedback_sentiment user_response
    if sentiment = "negative" then
      ({ s1 with current_goal := 7, error_count := 0,
                 has_asked_goal_1 := true },
       [⟨"user", user_response⟩, ⟨"assistant", analyze_negative_feedback⟩])
    else if sentiment = "positive" then
      advance_and_ask env { s1 with current_goal := 8 }
    else
      ({ s1 with current_goal := 7, error_count := 0,
                 has_asked_goal_1 := true },
       [⟨"user", user_response⟩, ⟨"assistant", neutral_clarification⟩])
  else if s.current_goal = 8 then
    let s1 := { s with
      user_responses :=
        { s.user_responses with human_agent_request := some user_response },
      conversation_active := false, goal_completed := true }
    if StrIncl "да" (pyLower user_response) ∨
        StrIncl "yes" (pyLower user_response) then
      (s1, [⟨"user", user_response⟩, ⟨"assistant", human_agent_yes_close⟩])
    else
      (s1, [⟨"user", user_response⟩, ⟨"assistant", human_agent_no_close⟩])
  else
    advance_and_ask env s

/-- The `new_conversation_keywords` list of the `/travel-agent` handler
(main.py 111). -/
def new_conversation_keywords : List String :=
  ["travel", "поездка", "путешествие", "тур", "начать", "новый", "снова"]

/-- The `is_new_conversation` test of the `/travel-agent` handler
(main.py 112). -/
def is_new_conversation (message : String) : Bool :=
  new_conversation_keywords.any
    (fun keyword => strContains (pyLower message) keyword)

/-- The reset condition of the `/travel-agent` handler (main.py 115-117). -/
def should_reset (s : AgentState) (message : String) : Bool :=
  s.goal_completed || !s.conversation_active || is_new_conversation message

/-- The session value the `/travel-agent` handler actually processes the
utterance against, after the reset check (main.py 114-118). -/
def pre_state (s : AgentState) (message : String) : AgentState :=
  if should_reset s message then reset_agent_state else s

/-- Branch choice of the `/travel-agent` handler (main.py 121-126): answers
are processed once the conversation is underway, otherwise the opening turn
just asks the first question. -/
def turn_core (env : PerplexityEnv) (s : AgentState) (message : String) :
    AgentState × List MemoryItem :=
  if s.current_goal > 1 ∨ (s.current_goal = 1 ∧ s.has_asked_goal_1) then
    process_user_response env s message
  else
    run_travel_agent_with_input env s message

/-- Status string computed by the handler after processing (main.py 137-140). -/
def travel_agent_status (s : AgentState) : String :=
  if s.current_goal > 8 ∨ s.goal_completed then "completed" else "in_progress"

/-- Embedding of one full `/travel-agent` turn (main.py 102-145). -/
def travel_agent_turn (env : PerplexityEnv) (s : AgentState)
    (message : String) : AgentState × List MemoryItem × String :=
  let s1 := pre_state s message
  let r := turn_core env s1 message
  (r.1, r.2, travel_agent_status r.1)

/-- The session state left behind by one `/travel-agent` turn. -/
def turn_state (env : PerplexityEnv) (s : AgentState) (message : String) :
    AgentState :=
  (travel_agent_turn env s message).1

/-- The answer slot written at interview step `k` (steps 1..5), i.e. the
QuestionKey-to-step correspondence of `process_user_response` 584-593. -/
def goal_key_get (a : Answers) (k : Nat) : Option String :=
  if k = 1 then a.trip_type
  else if k = 2 then a.destination
  else if k = 3 then a.group_size
  else if k = 4 then a.travel_dates
  else if k = 5 then a.departure_city
  else none

/-- Number of the five interview keys already present in `user_responses`. -/
def num_answered (a : Answers) : Nat :=
  (if a.trip_type.isSome then 1 else 0) +
  (if a.destination.isSome then 1 else 0) +
  (if a.group_size.isSome then 1 else 0) +
  (if a.travel_dates.isSome then 1 else 0) +
  (if a.departure_city.isSome then 1 else 0)

/-- States of the embedded `/travel-agent` handler that can actually occur:
the module-level initial state and everything the turn function produces
from a reachable state. -/
inductive Reachable : AgentState → Prop where
  | init : Reachable initial_agent_state
  | step (env : PerplexityEnv) (msg : String) {s : AgentState}
      (h : Reachable s) : Reachable (turn_state env s msg)

/-- Invariant maintained by every `/travel-agent` turn: the goal counter
stays within 1..8, the error counter is never incremented by the served
flow, and the five interview keys present are exactly those of the steps
already passed. -/
def StateInv (s : AgentState) : Prop :=
  1 ≤ s.current_goal ∧ s.current_goal ≤ 8 ∧ s.error_count = 0 ∧
  ∀ k, 1 ≤ k → k ≤ 5 →
    ((goal_key_get s.user_responses k).isSome ↔ k < s.current_goal)

/-- Whether `get_perplexity_recommendations` reports a failure (missing API
key, non-200 status, timeout, request error or unexpected exception) rather
than recommendation content. -/
def rec_call_failed (env : PerplexityEnv) : Bool :=
  match env.apiKey with
  | none => true
  | some _ =>
      match env.outcome with
      | .ok _ => false
      | _ => true

/-- Environment used for concrete evaluations: no API key configured and a
timed-out recommendation call. -/
def env0 : PerplexityEnv := ⟨none, .timeout, ""⟩

/-- Concrete mid-interview session: four answers collected, awaiting the
departure city at step 5. -/
def c1_answers : Answers :=
  { trip_type := some "1", destination := some "Париж",
    group_size := some "2", travel_dates := some "10-15 июня" }

/-- Concrete session holding `c1_answers`, awaiting the departure city. -/
def c1_state : AgentState :=
  { current_goal := 5, user_responses := c1_answers,
    error_count := 0, max_errors := 3, goal_completed := false,
    conversation_active := true, has_asked_goal_1 := true }

/-- Concrete mid-interview session used to exercise the reset branch: the
destination question is pending and one answer is stored. -/
def c2_state : AgentState :=
  { current_goal := 2,
    user_responses := { trip_type := some "1" },
    error_count := 0, max_errors := 3, goal_completed := false,
    conversation_active := true, has_asked_goal_1 := true }

/-- Concrete completed session (a goal-8 answer was processed). -/
def c7_answers : Answers :=
  { trip_type := some "1", destination := some "Париж",
    group_size := some "2", travel_dates := some "10-15 июня",
    departure_city := some "Минск", feedback := some "здорово",
    human_agent_request := some "yes" }

/-- Concrete completed session holding `c7_answers`. -/
def c7_state : AgentState :=
  { current_goal := 8, user_responses := c7_answers,
    error_count := 0, max_errors := 3, goal_completed := true,
    conversation_active := false, has_asked_goal_1 := true }

/-- Reachable session at step 2 (after the greeting and the trip-type
answer), used as a concrete instance for the step-invariant claims. -/
def reach2_state : AgentState :=
  turn_state env0 (turn_state env0 initial_agent_state "привет") "1"

/-- Reachable session at step 7 (a full interview followed by the summary
turn), used as a concrete instance for the feedback-step claims. -/
def reach7_state : AgentState :=
  turn_state env0 (turn_state env0 (turn_state env0 (turn_state env0
    (turn_state env0 (turn_state env0 (turn_state env0 initial_agent_state
      "привет") "1") "Сочи") "4") "август") "Казань") "ок"

/-- A substring stays a substring after prepending text on the left. -/
theorem StrIncl.appL {p s : String} (t : String) (h : StrIncl p s) :
    StrIncl p (t ++ s) := by
  obtain ⟨u, v, huv⟩ := h
  exact ⟨t.data ++ u, v, by simp [String.data_append, ← huv, List.append_assoc]⟩

/-- A substring stays a substring after appending text on the right. -/
theorem StrIncl.appR {p s : String} (t : String) (h : StrIncl p s) :
    StrIncl p (s ++ t) := by
  obtain ⟨u, v, huv⟩ := h
  exact ⟨u, v ++ t.data, by simp [String.data_append, ← huv, List.append_assoc]⟩

/-- Every string is a substring of itself. -/
theorem strIncl_refl (p : String) : StrIncl p p := ⟨[], [], by simp⟩

/-- Substring containment is transitive. -/
theorem StrIncl.trans {p q s : String} (h1 : StrIncl p q)
    (h2 : StrIncl q s) : StrIncl p s :=
  List.IsInfix.trans h1 h2

/-- Structure of the built summary: for every environment and every answer
mapping, the rendered text contains the trip-type line, the four other
attribute lines, and the full string returned by the recommendation call. -/
theorem summary_structure (env : PerplexityEnv) (a : Answers) :
    StrIncl (trip_type_branch (a.trip_type.getD "Not specified")).2
      (generate_travel_summary env a) ∧
    StrIncl ("• Место назначения: " ++ a.destination.getD "Not specified" ++ "\n")
      (generate_travel_summary env a) ∧
    StrIncl ("• Количество человек: " ++ a.group_size.getD "Not specified" ++ "\n")
      (generate_travel_summary env a) ∧
    StrIncl ("• Даты поездки: " ++ a.travel_dates.getD "Not specified" ++ "\n")
      (generate_travel_summary env a) ∧
    StrIncl ("• Город отправления: " ++ a.departure_city.getD "Not specified" ++ "\n")
      (generate_travel_summary env a) ∧
    StrIncl (get_perplexity_recommendations env
        (trip_type_branch (a.trip_type.getD "Not specified")).1
        (a.destination.getD "Not specified") (a.group_size.getD "Not specified")
        (a.travel_dates.getD "Not specified")
        (a.departure_city.getD "Not specified"))
      (generate_travel_summary env a) := by
  simp only [generate_travel_summary]
  refine ⟨?_, ?_, ?_, ?_, ?_, ?_⟩
  · exact ((((((((strIncl_refl _).appL _).appR _).appR _).appR _).appR
      _).appR _).appR _).appR _
  · exact ((((((((strIncl_refl _).appL _).appR _).appR _).appR _).appR
      _).appR _).appR _)
  · exact (((((((strIncl_refl _).appL _).appR _).appR _).appR _).appR _).appR _)
  · exact ((((((strIncl_refl _).appL _).appR _).appR _).appR _).appR _)
  · exact (((((strIncl_refl _).appL _).appR _).appR _).appR _)
  · exact (((strIncl_refl _).appL _).appR _)

/-- C3: `analyze_feedback_sentiment` lower-cases the text, counts the fixed
positive and negative keyword lists by substring containment (each listed
keyword contributing 1 when it occurs in the lowered text, not per
tokenized word), and returns positive exactly when the positive count
exceeds the negative count, negative exactly when the negative count
exceeds the positive count, and neutral otherwise, i.e. exactly on ties. -/
theorem analyze_feedback_sentiment_spec (text : String) :
    (analyze_feedback_sentiment text = "positive" ↔
      negative_words.countP (fun w => strContains (pyLower text) w) <
      positive_words.countP (fun w => strContains (pyLower text) w)) ∧
    (analyze_feedback_sentiment text = "negative" ↔
      positive_words.countP (fun w => strContains (pyLower text) w) <
      negative_words.countP (fun w => strContains (pyLower text) w)) ∧
    (analyze_feedback_sentiment text = "neutral" ↔
      positive_words.countP (fun w => strContains (pyLower text) w) =
      negative_words.countP (fun w => strContains (pyLower text) w)) := by
  simp only [analyze_feedback_sentiment]
  split_ifs with h1 h2
  · exact ⟨⟨fun _ => h1, fun _ => rfl⟩,
      ⟨fun hh => absurd hh (by decide), fun hh => absurd h1 (by omega)⟩,
      ⟨fun hh => absurd hh (by decide), fun hh => absurd h1 (by omega)⟩⟩
  · exact ⟨⟨fun hh => absurd hh (by decide), fun hh => absurd hh h1⟩,
      ⟨fun _ => h2, fun _ => rfl⟩,
      ⟨fun hh => absurd hh (by decide), fun hh => absurd h2 (by omega)⟩⟩
  · exact ⟨⟨fun hh => absurd hh (by decide), fun hh => absurd hh h1⟩,
      ⟨fun hh => absurd hh (by decide), fun hh => absurd hh h2⟩,
      ⟨fun _ => by omega, fun _ => rfl⟩⟩

/-- C9: a stored raw `trip_type` of `"2"` makes the built summary display
the organized-tourism label line rather than the raw value; raw values
`"1"`/`"2"`/`"3"` map to the labels
(Самостоятельная поездка / Организованный туризм… / Командировка), free
text containing the branch keyword (`organized`/`independent`/`business`,
checked in that order, earlier branches taking precedence) maps to the
matching label, and values recognized by no branch pass through verbatim. -/
theorem trip_type_display_mapping :
    (∀ (env : PerplexityEnv) (a : Answers), a.trip_type = some "2" →
      StrIncl "• Вы выбрали: Организованный туризм с использованием услуг туроператора\n"
        (generate_travel_summary env a)) ∧
    (trip_type_branch "1").1 = "Самостоятельная поездка" ∧
    (trip_type_branch "2").1 =
      "Организованный туризм с использованием услуг туроператора" ∧
    (trip_type_branch "3").1 = "Командировка" ∧
    (∀ t, StrIncl "organized" (pyLower t) →
      (trip_type_branch t).1 =
        "Организованный туризм с использованием услуг туроператора") ∧
    (∀ t, ¬(t = "2" ∨ StrIncl "organized" (pyLower t)) →
      StrIncl "independent" (pyLower t) →
      (trip_type_branch t).1 = "Самостоятельная поездка") ∧
    (∀ t, ¬(t = "2" ∨ StrIncl "organized" (pyLower t)) →
      ¬(t = "1" ∨ StrIncl "independent" (pyLower t)) →
      StrIncl "business" (pyLower t) →
      (trip_type_branch t).1 = "Командировка") ∧
    (∀ t, ¬(t = "2" ∨ StrIncl "organized" (pyLower t)) →
      ¬(t = "1" ∨ StrIncl "independent" (pyLower t)) →
      ¬(t = "3" ∨ StrIncl "business" (pyLower t)) →
      (trip_type_branch t).1 = t) := by
  refine ⟨?_, by decide, by decide, by decide, ?_, ?_, ?_, ?_⟩
  · intro env a h
    have hs := (summary_structure env a).1
    rw [h] at hs
    have e : trip_type_branch ((some "2").getD "Not specified") =
        ("Организованный туризм с использованием услуг туроператора",
         "• Вы выбрали: Организованный туризм с использованием услуг туроператора\n") := by
      decide
    rw [e] at hs
    exact hs
  · intro t h
    simp [trip_type_branch, h]
  · intro t h1 h2
    simp [trip_type_branch, h1, h2]
  · intro t h1 h2 h3
    simp [trip_type_branch, h1, h2, h3]
  · intro t h1 h2 h3
    simp [trip_type_branch, h1, h2, h3]

/-- C9 witness: concrete instances of each branch of the mapping. -/
theorem trip_type_display_mapping_witness :
    StrIncl "• Вы выбрали: Организованный туризм с использованием услуг туроператора\n"
      (generate_travel_summary env0
        { trip_type := some "2", destination := some "Париж" }) ∧
    (trip_type_branch "organized tour").1 =
      "Организованный туризм с использованием услуг туроператора" ∧
    (trip_type_branch "independent trip").1 = "Самостоятельная поездка" ∧
    (trip_type_branch "business trip").1 = "Командировка" ∧
    (trip_type_branch "просто отдых").1 = "просто отдых" :=
  ⟨trip_type_display_mapping.1 env0 _ rfl,
   trip_type_display_mapping.2.2.2.2.1 "organized tour" (by decide),
   trip_type_display_mapping.2.2.2.2.2.1 "independent trip" (by decide)
     (by decide),
   trip_type_display_mapping.2.2.2.2.2.2.1 "business trip" (by decide)
     (by decide) (by decide),
   trip_type_display_mapping.2.2.2.2.2.2.2 "просто отдых" (by decide)
     (by decide) (by decide)⟩

/-- C10: the summary builder is total over partial answer mappings: every
absent attribute renders as the placeholder `Not specified` (the missing
trip type falling through the label mapping verbatim as the line
`• Тип поездки: Not specified`), and all five attribute lines are present
in the output for every answers mapping whatsoever. -/
theorem summary_total_on_partial_answers (env : PerplexityEnv) (a : Answers) :
    (a.trip_type = none →
      StrIncl "• Тип поездки: Not specified\n" (generate_travel_summary env a)) ∧
    (a.destination = none →
      StrIncl "• Место назначения: Not specified\n" (generate_travel_summary env a)) ∧
    (a.group_size = none →
      StrIncl "• Количество человек: Not specified\n" (generate_travel_summary env a)) ∧
    (a.travel_dates = none →
      StrIncl "• Даты поездки: Not specified\n" (generate_travel_summary env a)) ∧
    (a.departure_city = none →
      StrIncl "• Город отправления: Not specified\n" (generate_travel_summary env a)) ∧
    StrIncl (trip_type_branch (a.trip_type.getD "Not specified")).2
      (generate_travel_summary env a) ∧
    StrIncl ("• Место назначения: " ++ a.destination.getD "Not specified" ++ "\n")
      (generate_travel_summary env a) ∧
    StrIncl ("• Количество человек: " ++ a.group_size.getD "Not specified" ++ "\n")
      (generate_travel_summary env a) ∧
    StrIncl ("• Даты поездки: " ++ a.travel_dates.getD "Not specified" ++ "\n")
      (generate_travel_summary env a) ∧
    StrIncl ("• Город отправления: " ++ a.departure_city.getD "Not specified" ++ "\n")
      (generate_travel_summary env a) := by
  obtain ⟨hs1, hs2, hs3, hs4, hs5, -⟩ := summary_structure env a
  refine ⟨?_, ?_, ?_, ?_, ?_, hs1, hs2, hs3, hs4, hs5⟩
  · intro h
    have e : trip_type_branch ((none : Option String).getD "Not specified") =
        ("Not specified", "• Тип поездки: Not specified\n") := by decide
    rw [h, e] at hs1
    exact hs1
  · intro h
    rw [h] at hs2
    exact hs2
  · intro h
    rw [h] at hs3
    exact hs3
  · intro h
    rw [h] at hs4
    exact hs4
  · intro h
    rw [h] at hs5
    exact hs5

/-- C10 witness: building the summary from a fully empty answers mapping
renders all five attribute lines with the placeholder. -/
theorem summary_total_on_partial_answers_witness :
    StrIncl "• Тип поездки: Not specified\n"
      (generate_travel_summary env0 {}) ∧
    StrIncl "• Место назначения: Not specified\n"
      (generate_travel_summary env0 {}) ∧
    StrIncl "• Количество человек: Not specified\n"
      (generate_travel_summary env0 {}) ∧
    StrIncl "• Даты поездки: Not specified\n"
      (generate_travel_summary env0 {}) ∧
    StrIncl "• Город отправления: Not specified\n"
      (generate_travel_summary env0 {}) :=
  ⟨(summary_total_on_partial_answers env0 {}).1 rfl,
   (summary_total_on_partial_answers env0 {}).2.1 rfl,
   (summary_total_on_partial_answers env0 {}).2.2.1 rfl,
   (summary_total_on_partial_answers env0 {}).2.2.2.1 rfl,
   (summary_total_on_partial_answers env0 {}).2.2.2.2.1 rfl⟩

/-- C5: processing any utterance at step 8 stores the raw utterance under
`human_agent_request`, deactivates and completes the session, and emits the
affirmative (human hand-off) closing message exactly when the lowered
utterance contains an affirmative token (`да` or `yes` as a substring), the
plain thank-you closing otherwise. -/
theorem human_agent_step_closes_session (env : PerplexityEnv)
    (s : AgentState) (msg : String) (h : s.current_goal = 8) :
    (process_user_response env s msg).1.user_responses.human_agent_request =
      some msg ∧
    (process_user_response env s msg).1.conversation_active = false ∧
    (process_user_response env s msg).1.goal_completed = true ∧
    ((process_user_response env s msg).2 =
        [⟨"user", msg⟩, ⟨"assistant", human_agent_yes_close⟩] ↔
      (StrIncl "да" (pyLower msg) ∨ StrIncl "yes" (pyLower msg))) ∧
    (¬(StrIncl "да" (pyLower msg) ∨ StrIncl "yes" (pyLower msg)) →
      (process_user_response env s msg).2 =
        [⟨"user", msg⟩, ⟨"assistant", human_agent_no_close⟩]) := by
  simp only [process_user_response, h]
  norm_num
  by_cases hy : StrIncl "да" (pyLower msg) ∨ StrIncl "yes" (pyLower msg)
  · rw [if_pos hy]
    exact ⟨rfl, rfl, rfl, ⟨fun _ => hy, fun _ => rfl⟩,
      fun hna hnb => absurd hy (not_or.mpr ⟨hna, hnb⟩)⟩
  · rw [if_neg hy]
    refine ⟨rfl, rfl, rfl, ⟨fun he => ?_, fun hc => absurd hc hy⟩,
      fun _ _ => rfl⟩
    have hcl : human_agent_no_close = human_agent_yes_close := by
      have := congrArg (fun l => (l.getD 1 ⟨"", ""⟩).content) he
      simpa using this
    exact absurd hcl (by decide)

/-- C5 witness: Scenario D, the utterance `yes` at step 8 completes the
session and selects the affirmative closing message. -/
theorem human_agent_step_closes_session_witness :
    (process_user_response env0 c7_state "yes").1.user_responses.human_agent_request =
      some "yes" ∧
    (process_user_response env0 c7_state "yes").1.conversation_active = false ∧
    (process_user_response env0 c7_state "yes").1.goal_completed = true ∧
    (process_user_response env0 c7_state "yes").2 =
      [⟨"user", "yes"⟩, ⟨"assistant", human_agent_yes_close⟩] := by
  have h := human_agent_step_closes_session env0 c7_state "yes" rfl
  exact ⟨h.1, h.2.1, h.2.2.1, h.2.2.2.1.mpr (Or.inr (by decide))⟩

/-- C6: the summary builder is total: for every answers mapping and every
outcome of the recommendation call, the summary is produced (no exception
propagates), still renders the five attribute lines, and every failure of
the Recommendation Client — missing key, bad status, timeout, request or
unexpected error — appears as an inline `❌` error notice inside the
summary text; a timeout in particular renders its apology string. -/
theorem summary_renders_failures_inline (env : PerplexityEnv) (a : Answers) :
    StrIncl (trip_type_branch (a.trip_type.getD "Not specified")).2
      (generate_travel_summary env a) ∧
    StrIncl ("• Место назначения: " ++ a.destination.getD "Not specified" ++ "\n")
      (generate_travel_summary env a) ∧
    StrIncl ("• Количество человек: " ++ a.group_size.getD "Not specified" ++ "\n")
      (generate_travel_summary env a) ∧
    StrIncl ("• Даты поездки: " ++ a.travel_dates.getD "Not specified" ++ "\n")
      (generate_travel_summary env a) ∧
    StrIncl ("• Город отправления: " ++ a.departure_city.getD "Not specified" ++ "\n")
      (generate_travel_summary env a) ∧
    (rec_call_failed env = true → StrIncl "❌" (generate_travel_summary env a)) ∧
    (env.apiKey ≠ none → env.outcome = RecOutcome.timeout →
      StrIncl "❌ Превышено время ожидания ответа от API. Попробуйте позже."
        (generate_travel_summary env a)) := by
  obtain ⟨hs1, hs2, hs3, hs4, hs5, hrec⟩ := summary_structure env a
  refine ⟨hs1, hs2, hs3, hs4, hs5, ?_, ?_⟩
  · intro hfail
    refine StrIncl.trans ?_ hrec
    obtain ⟨k, o, d⟩ := env
    cases k with
    | none =>
        exact StrIncl.appR _ (by decide :
          StrIncl "❌" "❌ API ключ не найден. Пожалуйста, проверьте настройки.\n")
    | some key =>
        cases o with
        | ok content => simp [rec_call_failed] at hfail
        | badStatus code body =>
            exact StrIncl.appR _ (StrIncl.appR _ (StrIncl.appR _
              (by decide : StrIncl "❌" "❌ Ошибка API: ")))
        | timeout =>
            show StrIncl "❌"
              "❌ Превышено время ожидания ответа от API. Попробуйте позже."
            decide
        | requestError m =>
            exact StrIncl.appR _
              (by decide : StrIncl "❌" "❌ Ошибка соединения с API: ")
        | unexpectedError m =>
            exact StrIncl.appR _
              (by decide : StrIncl "❌" "❌ Неожиданная ошибка: ")
  · intro hk ht
    refine StrIncl.trans ?_ hrec
    obtain ⟨k, o, d⟩ := env
    cases k with
    | none => exact absurd rfl hk
    | some key =>
        cases ht
        exact strIncl_refl _

/-- C6 witness: Scenario E — with an API key configured and a timed-out
recommendation call, the summary still renders the attribute lines and the
visible timeout notice. -/
theorem summary_renders_failures_inline_witness :
    rec_call_failed ⟨some "key", .timeout, ""⟩ = true ∧
    StrIncl "❌" (generate_travel_summary ⟨some "key", .timeout, ""⟩ c1_answers) ∧
    StrIncl "❌ Превышено время ожидания ответа от API. Попробуйте позже."
      (generate_travel_summary ⟨some "key", .timeout, ""⟩ c1_answers) ∧
    StrIncl ("• Место назначения: " ++
        (c1_answers.destination.getD "Not specified") ++ "\n")
      (generate_travel_summary ⟨some "key", .timeout, ""⟩ c1_answers) :=
  ⟨rfl,
   (summary_renders_failures_inline ⟨some "key", .timeout, ""⟩ c1_answers).2.2.2.2.2.1
     rfl,
   (summary_renders_failures_inline ⟨some "key", .timeout, ""⟩ c1_answers).2.2.2.2.2.2
     (by simp) rfl,
   (summary_renders_failures_inline ⟨some "key", .timeout, ""⟩ c1_answers).2.1⟩

/-- C2: whenever the lowered utterance contains one of the new-conversation
keywords (`travel`, `поездка`, `путешествие`, `тур`, `начать`, `новый`,
`снова`), the `/travel-agent` handler replaces the session with a fresh one
(step 1, empty answers, zero errors, active) before any transition rule
runs, so the whole turn behaves as if started from the fresh session and
all previously collected answers are discarded. -/
theorem keyword_utterance_resets_session (env : PerplexityEnv)
    (s : AgentState) (msg : String) (h : is_new_conversation msg = true) :
    pre_state s msg = reset_agent_state ∧
    reset_agent_state.current_goal = 1 ∧
    reset_agent_state.user_responses = ({} : Answers) ∧
    reset_agent_state.error_count = 0 ∧
    reset_agent_state.conversation_active = true ∧
    travel_agent_turn env s msg = travel_agent_turn env reset_agent_state msg := by
  have hr : should_reset s msg = true := by simp [should_reset, h]
  have hr2 : should_reset reset_agent_state msg = true := by
    simp [should_reset, h]
  refine ⟨by simp [pre_state, hr], rfl, rfl, rfl, rfl, ?_⟩
  simp [travel_agent_turn, pre_state, hr, hr2]

/-- C2 witness: a mid-interview destination answer `Турция` (which contains
the keyword `тур`) restarts the interview from a session that already held
an answer, discarding it. -/
theorem keyword_utterance_resets_session_witness :
    is_new_conversation "Турция" = true ∧
    (pre_state c2_state "Турция" = reset_agent_state ∧
     reset_agent_state.current_goal = 1 ∧
     reset_agent_state.user_responses = ({} : Answers) ∧
     reset_agent_state.error_count = 0 ∧
     reset_agent_state.conversation_active = true ∧
     travel_agent_turn env0 c2_state "Турция" =
       travel_agent_turn env0 reset_agent_state "Турция") :=
  ⟨by decide, keyword_utterance_resets_session env0 c2_state "Турция" (by decide)⟩

/-- C7: once a session is completed (or inactive), the next utterance is
processed against a fresh session — step 1, empty answers, zero errors,
active and not completed — before any transition rule runs. -/
theorem completed_session_resets_before_processing (env : PerplexityEnv)
    (s : AgentState) (msg : String)
    (h : s.goal_completed = true ∨ s.conversation_active = false) :
    pre_state s msg = reset_agent_state ∧
    reset_agent_state.current_goal = 1 ∧
    reset_agent_state.user_responses = ({} : Answers) ∧
    reset_agent_state.error_count = 0 ∧
    reset_agent_state.conversation_active = true ∧
    reset_agent_state.goal_completed = false ∧
    travel_agent_turn env s msg = travel_agent_turn env reset_agent_state msg := by
  have hr : should_reset s msg = true := by
    rcases h with h | h <;> simp [should_reset, h]
  refine ⟨by simp [pre_state, hr], rfl, rfl, rfl, rfl, rfl, ?_⟩
  simp only [travel_agent_turn, pre_state, hr, if_true]
  rcases hw : should_reset reset_agent_state msg with _ | _ <;> simp [hw]

/-- C7 witness: the utterance after a completed goal-8 exchange is handled
from the fresh initial session. -/
theorem completed_session_resets_before_processing_witness :
    (pre_state c7_state "здравствуйте" = reset_agent_state ∧
     reset_agent_state.current_goal = 1 ∧
     reset_agent_state.user_responses = ({} : Answers) ∧
     reset_agent_state.error_count = 0 ∧
     reset_agent_state.conversation_active = true ∧
     reset_agent_state.goal_completed = false ∧
     travel_agent_turn env0 c7_state "здравствуйте" =
       travel_agent_turn env0 reset_agent_state "здравствуйте") :=
  completed_session_resets_before_processing env0 c7_state "здравствуйте"
    (Or.inl rfl)

theorem stateInv_turn_core (env : PerplexityEnv) (s : AgentState)
    (msg : String) (h : StateInv s) : StateInv (turn_core env s msg).1 := by
  obtain ⟨g, a, e, m, gc, ca, ha⟩ := s
  obtain ⟨t, d, gs, td, dc, fb, hr⟩ := a
  obtain ⟨h1, h2, h3, h4⟩ := h
  simp only at h1 h2 h3
  have h41 := h4 1 (by norm_num) (by norm_num)
  have h42 := h4 2 (by norm_num) (by norm_num)
  have h43 := h4 3 (by norm_num) (by norm_num)
  have h44 := h4 4 (by norm_num) (by norm_num)
  have h45 := h4 5 (by norm_num) (by norm_num)
  simp only [goal_key_get] at h41 h42 h43 h44 h45
  norm_num at h41 h42 h43 h44 h45
  clear h4
  subst h3
  unfold StateInv
  interval_cases g
  · -- g = 1
    cases ha
    · simp only [turn_core, run_travel_agent_with_input]
      norm_num
      intro k hk1 hk5
      interval_cases k <;> simp_all [goal_key_get]
    · simp only [turn_core, process_user_response, advance_and_ask,
        run_travel_agent_with_input]
      norm_num
      intro k hk1 hk5
      interval_cases k <;> simp_all [goal_key_get]
  · -- g = 2
    simp only [turn_core, process_user_response, advance_and_ask,
      run_travel_agent_with_input]
    norm_num
    intro k hk1 hk5
    interval_cases k <;> simp_all [goal_key_get]
  · -- g = 3
    simp only [turn_core, process_user_response, advance_and_ask,
      run_travel_agent_with_input]
    norm_num
    intro k hk1 hk5
    interval_cases k <;> simp_all [goal_key_get]
  · -- g = 4
    simp only [turn_core, process_user_response, advance_and_ask,
      run_travel_agent_with_input]
    norm_num
    intro k hk1 hk5
    interval_cases k <;> simp_all [goal_key_get]
  · -- g = 5
    simp only [turn_core, process_user_response, advance_and_ask,
      run_travel_agent_with_input]
    norm_num
    intro k hk1 hk5
    interval_cases k <;> simp_all [goal_key_get]
  · -- g = 6
    simp only [turn_core, process_user_response, advance_and_ask,
      run_travel_agent_with_input]
    norm_num
    intro k hk1 hk5
    interval_cases k <;> simp_all [goal_key_get]
  · -- g = 7
    by_cases hneg : analyze_feedback_sentiment msg = "negative"
    · simp only [turn_core, process_user_response, hneg]
      norm_num
      intro k hk1 hk5
      interval_cases k <;> simp_all [goal_key_get]
    · by_cases hpos : analyze_feedback_sentiment msg = "positive"
      · simp only [turn_core, process_user_response, advance_and_ask,
          run_travel_agent_with_input, hneg, hpos,
          show ¬(("positive" : String) = "negative") from by decide]
        norm_num
        intro k hk1 hk5
        interval_cases k <;> simp_all [goal_key_get]
      · simp only [turn_core, process_user_response, hneg, hpos]
        norm_num
        intro k hk1 hk5
        interval_cases k <;> simp_all [goal_key_get]
  · -- g = 8
    by_cases hy : StrIncl "да" (pyLower msg) ∨ StrIncl "yes" (pyLower msg)
    · simp only [turn_core, process_user_response, hy]
      norm_num
      intro k hk1 hk5
      interval_cases k <;> simp_all [goal_key_get]
    · simp only [turn_core, process_user_response, hy]
      norm_num
      intro k hk1 hk5
      interval_cases k <;> simp_all [goal_key_get]

/-- The state invariant holds for the module-level initial state. -/
theorem stateInv_initial : StateInv initial_agent_state := by
  refine ⟨by simp [initial_agent_state], by simp [initial_agent_state], rfl, ?_⟩
  intro k h1 h5
  interval_cases k <;> simp [initial_agent_state, goal_key_get]

/-- The state invariant holds for the reset state. -/
theorem stateInv_reset : StateInv reset_agent_state := by
  refine ⟨by simp [reset_agent_state], by simp [reset_agent_state], rfl, ?_⟩
  intro k h1 h5
  interval_cases k <;> simp [reset_agent_state, goal_key_get]

/-- The reset check preserves the state invariant. -/
theorem stateInv_pre (s : AgentState) (msg : String) (h : StateInv s) :
    StateInv (pre_state s msg) := by
  unfold pre_state
  split
  · exact stateInv_reset
  · exact h

/-- Every full `/travel-agent` turn preserves the state invariant. -/
theorem stateInv_turn (env : PerplexityEnv) (s : AgentState) (msg : String)
    (h : StateInv s) : StateInv (turn_state env s msg) := by
  have hc := stateInv_turn_core env (pre_state s msg) msg (stateInv_pre s msg h)
  simpa [turn_state, travel_agent_turn] using hc

/-- Every reachable session state satisfies the state invariant: the goal
counter stays in 1..8, the error counter stays 0 (nothing in the served
flow ever increments it), and the interview keys present are exactly those
of the steps already passed. -/
theorem reachable_inv {s : AgentState} (h : Reachable s) : StateInv s := by
  induction h with
  | init => exact stateInv_initial
  | step env msg h ih => exact stateInv_turn env _ msg ih

/-- Helper: the concrete step-2 session `reach2_state` is reachable. -/
theorem reach2_state_reachable : Reachable reach2_state :=
  Reachable.step env0 "1" (Reachable.step env0 "привет" Reachable.init)

/-- Helper: the concrete step-7 session `reach7_state` is reachable. -/
theorem reach7_state_reachable : Reachable reach7_state :=
  Reachable.step env0 "ок" (Reachable.step env0 "Казань" (Reachable.step env0
    "август" (Reachable.step env0 "4" (Reachable.step env0 "Сочи"
      (Reachable.step env0 "1" (Reachable.step env0 "привет"
        Reachable.init))))))

/-- C4: at the feedback step (7) of any reachable session, a positive
classification advances to step 8 emitting the human-agent-offer prompt, a
negative classification stays at step 7 emitting the negative-feedback
clarification prompt, and a neutral classification stays at step 7 emitting
the generic clarification prompt; in the negative and neutral cases the
error counter is unchanged (reachable sessions always carry error count 0,
which the two branches re-store). -/
theorem feedback_step_transitions (env : PerplexityEnv) (s : AgentState)
    (msg : String) (hr : Reachable s) (h7 : s.current_goal = 7) :
    (analyze_feedback_sentiment msg = "positive" →
      (process_user_response env s msg).1.current_goal = 8 ∧
      (process_user_response env s msg).2 =
        [⟨"user", "continue"⟩, ⟨"assistant", offer_human_agent_connection⟩]) ∧
    (analyze_feedback_sentiment msg = "negative" →
      (process_user_response env s msg).1.current_goal = 7 ∧
      (process_user_response env s msg).2 =
        [⟨"user", msg⟩, ⟨"assistant", analyze_negative_feedback⟩] ∧
      (process_user_response env s msg).1.error_count = s.error_count) ∧
    (analyze_feedback_sentiment msg = "neutral" →
      (process_user_response env s msg).1.current_goal = 7 ∧
      (process_user_response env s msg).2 =
        [⟨"user", msg⟩, ⟨"assistant", neutral_clarification⟩] ∧
      (process_user_response env s msg).1.error_count = s.error_count) := by
  have he : s.error_count = 0 := (reachable_inv hr).2.2.1
  refine ⟨fun hpos => ?_, fun hneg => ?_, fun hneu => ?_⟩
  · have hneg : ¬ analyze_feedback_sentiment msg = "negative" := by
      rw [hpos]; decide
    simp only [process_user_response, h7, advance_and_ask,
      run_travel_agent_with_input, hpos, hneg,
      show ¬(("positive" : String) = "negative") from by decide]
    norm_num
  · simp only [process_user_response, h7, hneg]
    norm_num
    exact he.symm
  · have hneg' : ¬ analyze_feedback_sentiment msg = "negative" := by
      rw [hneu]; decide
    have hpos' : ¬ analyze_feedback_sentiment msg = "positive" := by
      rw [hneu]; decide
    simp only [process_user_response, h7, hneg', hpos']
    norm_num
    exact he.symm

/-- C4 witness: Scenario C at the reachable step-7 session — the clearly
positive utterance `здорово` advances the session to step 8 and emits the
human-agent-offer prompt. -/
theorem feedback_step_transitions_witness :
    (process_user_response env0 reach7_state "здорово").1.current_goal = 8 ∧
    (process_user_response env0 reach7_state "здорово").2 =
      [⟨"user", "continue"⟩, ⟨"assistant", offer_human_agent_connection⟩] :=
  (feedback_step_transitions env0 reach7_state "здорово"
    reach7_state_reachable (by decide)).1 (by decide)


/-- C8: along turns of reachable sessions without a reset, the step is
monotonically non-decreasing and never leaves 1..8 (so it never exceeds
terminal+1); and whenever the session sits at an interview step g in 1..5
with the conversation underway (for step 1 this means the opening question
was already asked, per the session lifecycle the first utterance only
creates the session), the turn stores the utterance verbatim under the
matching QuestionKey, increments the step by exactly one, resets the error
counter, adds exactly one new answer key and leaves every other interview
key unchanged. -/
theorem interview_steps_store_and_advance (env : PerplexityEnv)
    (s : AgentState) (msg : String) (hr : Reachable s)
    (hnr : should_reset s msg = false) :
    s.current_goal ≤ (turn_state env s msg).current_goal ∧
    (turn_state env s msg).current_goal ≤ 8 ∧
    (∀ g, 1 ≤ g → g ≤ 5 → s.current_goal = g →
      (g = 1 → s.has_asked_goal_1 = true) →
      goal_key_get (turn_state env s msg).user_responses g = some msg ∧
      (turn_state env s msg).current_goal = g + 1 ∧
      (turn_state env s msg).error_count = 0 ∧
      num_answered (turn_state env s msg).user_responses =
        num_answered s.user_responses + 1 ∧
      (∀ j, 1 ≤ j → j ≤ 5 → j ≠ g →
        goal_key_get (turn_state env s msg).user_responses j =
          goal_key_get s.user_responses j)) := by
  obtain ⟨h1, h2, h3, h4⟩ := reachable_inv hr
  have hpre : pre_state s msg = s := by simp [pre_state, hnr]
  simp only [turn_state, travel_agent_turn, hpre]
  obtain ⟨g0, a, e, m, gc, ca, ha⟩ := s
  obtain ⟨t, d, gs, td, dc, fb, hrq⟩ := a
  simp only at h1 h2 h3 ⊢
  have h41 := h4 1 (by norm_num) (by norm_num)
  have h42 := h4 2 (by norm_num) (by norm_num)
  have h43 := h4 3 (by norm_num) (by norm_num)
  have h44 := h4 4 (by norm_num) (by norm_num)
  have h45 := h4 5 (by norm_num) (by norm_num)
  simp only [goal_key_get] at h41 h42 h43 h44 h45
  norm_num at h41 h42 h43 h44 h45
  clear h4
  subst h3
  interval_cases g0
  · cases ha
    · simp only [turn_core, run_travel_agent_with_input]
      norm_num
      intro g hg1 hg5 hEq
      omega
    · simp only [turn_core, process_user_response, advance_and_ask,
        run_travel_agent_with_input]
      norm_num
      intro g hg1 hg5 hEq
      have hg : g = 1 := by omega
      subst hg
      have ht : t = none := Option.not_isSome_iff_eq_none.mp (by simpa using h41)
      refine ⟨by simp [goal_key_get], by norm_num, ?_, ?_⟩
      · (simp [num_answered, ht]; omega)
      · intro j hj1 hj5 hjne
        interval_cases j <;> first | exact absurd rfl hjne | simp [goal_key_get]
  · simp only [turn_core, process_user_response, advance_and_ask,
      run_travel_agent_with_input]
    norm_num
    intro g hg1 hg5 hEq hAsk
    have hg : g = 2 := by omega
    subst hg
    have hd : d = none := Option.not_isSome_iff_eq_none.mp (by simpa using h42)
    refine ⟨by simp [goal_key_get], by norm_num, ?_, ?_⟩
    · (simp [num_answered, hd]; omega)
    · intro j hj1 hj5 hjne
      interval_cases j <;> first | exact absurd rfl hjne | simp [goal_key_get]
  · simp only [turn_core, process_user_response, advance_and_ask,
      run_travel_agent_with_input]
    norm_num
    intro g hg1 hg5 hEq hAsk
    have hg : g = 3 := by omega
    subst hg
    have hgs : gs = none := Option.not_isSome_iff_eq_none.mp (by simpa using h43)
    refine ⟨by simp [goal_key_get], by norm_num, ?_, ?_⟩
    · (simp [num_answered, hgs]; omega)
    · intro j hj1 hj5 hjne
      interval_cases j <;> first | exact absurd rfl hjne | simp [goal_key_get]
  · simp only [turn_core, process_user_response, advance_and_ask,
      run_travel_agent_with_input]
    norm_num
    intro g hg1 hg5 hEq hAsk
    have hg : g = 4 := by omega
    subst hg
    have htd : td = none := Option.not_isSome_iff_eq_none.mp (by simpa using h44)
    refine ⟨by simp [goal_key_get], by norm_num, ?_, ?_⟩
    · (simp [num_answered, htd]; omega)
    · intro j hj1 hj5 hjne
      interval_cases j <;> first | exact absurd rfl hjne | simp [goal_key_get]
  · simp only [turn_core, process_user_response, advance_and_ask,
      run_travel_agent_with_input]
    norm_num
    intro g hg1 hg5 hEq hAsk
    have hg : g = 5 := by omega
    subst hg
    have hdc : dc = none := Option.not_isSome_iff_eq_none.mp (by simpa using h45)
    refine ⟨by simp [goal_key_get], by norm_num, ?_, ?_⟩
    · simp [num_answered, hdc]
    · intro j hj1 hj5 hjne
      interval_cases j <;> first | exact absurd rfl hjne | simp [goal_key_get]
  · simp only [turn_core, process_user_response, advance_and_ask,
      run_travel_agent_with_input]
    norm_num
    intro g hg1 hg5 hEq
    omega
  · by_cases hneg : analyze_feedback_sentiment msg = "negative"
    · simp only [turn_core, process_user_response, hneg]
      norm_num
      intro g hg1 hg5 hEq
      omega
    · by_cases hpos : analyze_feedback_sentiment msg = "positive"
      · simp only [turn_core, process_user_response, advance_and_ask,
          run_travel_agent_with_input, hneg, hpos,
          show ¬(("positive" : String) = "negative") from by decide]
        norm_num
        intro g hg1 hg5 hEq
        omega
      · simp only [turn_core, process_user_response, hneg, hpos]
        norm_num
        intro g hg1 hg5 hEq
        omega
  · by_cases hy : StrIncl "да" (pyLower msg) ∨ StrIncl "yes" (pyLower msg)
    · simp only [turn_core, process_user_response, hy]
      norm_num
      intro g hg1 hg5 hEq
      omega
    · simp only [turn_core, process_user_response, hy]
      norm_num
      intro g hg1 hg5 hEq
      omega

/-- C8 witness: at the reachable step-2 session, the destination answer
`Париж` is stored verbatim, the step advances from 2 to 3, the error
counter is 0 and exactly one answer key was added. -/
theorem interview_steps_store_and_advance_witness :
    goal_key_get (turn_state env0 reach2_state "Париж").user_responses 2 =
      some "Париж" ∧
    (turn_state env0 reach2_state "Париж").current_goal = 3 ∧
    (turn_state env0 reach2_state "Париж").error_count = 0 ∧
    num_answered (turn_state env0 reach2_state "Париж").user_responses =
      num_answered reach2_state.user_responses + 1 := by
  have h := (interview_steps_store_and_advance env0 reach2_state "Париж"
    reach2_state_reachable (by decide)).2.2 2 (by norm_num) (by norm_num)
    (by decide) (fun hc => absurd hc (by norm_num))
  exact ⟨h.1, h.2.1, h.2.2.1, h.2.2.2.1⟩

/-- C1 counterexample: at a concrete session holding the first four answers
at step 5, processing the departure-city answer `Берлин` leaves the session
at step 6, not 7, and no message of that turn is the feedback-request
prompt — the step-6 summary state IS observed by the caller. -/
theorem fifth_answer_turn_not_step7_cex :
    (turn_state env0 c1_state "Берлин").current_goal = 6 ∧
    ¬((turn_state env0 c1_state "Берлин").current_goal = 7) ∧
    (∀ item ∈ (travel_agent_turn env0 c1_state "Берлин").2.1,
      item.content ≠ ask_user_feedback) := by decide

/-- C1 amended: processing the fifth utterance stores it as the departure
city and emits, in that same turn, the summary containing all five rendered
fields plus the recommendation-or-failure block, but leaves the session at
step 6 without the feedback prompt; the feedback-request prompt is emitted
only by the following turn, which moves the session to step 7. -/
theorem fifth_answer_turn_emits_summary_at_step6 (env : PerplexityEnv)
    (s : AgentState) (msg : String) (h5 : s.current_goal = 5)
    (hnr : should_reset s msg = false) :
    (turn_state env s msg).current_goal = 6 ∧
    (turn_state env s msg).user_responses.departure_city = some msg ∧
    (travel_agent_turn env s msg).2.1 =
      [⟨"user", "continue"⟩,
       ⟨"assistant",
        generate_travel_summary env (turn_state env s msg).user_responses⟩] ∧
    StrIncl (trip_type_branch
        ((turn_state env s msg).user_responses.trip_type.getD "Not specified")).2
      (generate_travel_summary env (turn_state env s msg).user_responses) ∧
    StrIncl ("• Место назначения: " ++
        (turn_state env s msg).user_responses.destination.getD "Not specified" ++ "\n")
      (generate_travel_summary env (turn_state env s msg).user_responses) ∧
    StrIncl ("• Количество человек: " ++
        (turn_state env s msg).user_responses.group_size.getD "Not specified" ++ "\n")
      (generate_travel_summary env (turn_state env s msg).user_responses) ∧
    StrIncl ("• Даты поездки: " ++
        (turn_state env s msg).user_responses.travel_dates.getD "Not specified" ++ "\n")
      (generate_travel_summary env (turn_state env s msg).user_responses) ∧
    StrIncl ("• Город отправления: " ++ msg ++ "\n")
      (generate_travel_summary env (turn_state env s msg).user_responses) ∧
    StrIncl (get_perplexity_recommendations env
        (trip_type_branch
          ((turn_state env s msg).user_responses.trip_type.getD "Not specified")).1
        ((turn_state env s msg).user_responses.destination.getD "Not specified")
        ((turn_state env s msg).user_responses.group_size.getD "Not specified")
        ((turn_state env s msg).user_responses.travel_dates.getD "Not specified")
        msg)
      (generate_travel_summary env (turn_state env s msg).user_responses) ∧
    (∀ msg2, should_reset (turn_state env s msg) msg2 = false →
      (turn_state env (turn_state env s msg) msg2).current_goal = 7 ∧
      (travel_agent_turn env (turn_state env s msg) msg2).2.1 =
        [⟨"user", "continue"⟩, ⟨"assistant", ask_user_feedback⟩]) := by
  have hpre : pre_state s msg = s := by simp [pre_state, hnr]
  simp only [turn_state, travel_agent_turn, hpre, turn_core,
    process_user_response, advance_and_ask, run_travel_agent_with_input, h5]
  norm_num
  obtain ⟨hs1, hs2, hs3, hs4, hs5, hs6⟩ := summary_structure env
    { s.user_responses with departure_city := some msg }
  refine ⟨?_, ?_, ?_, ?_, ?_, ?_, ?_⟩
  · exact hs1
  · exact hs2
  · exact hs3
  · exact hs4
  · exact hs5
  · exact hs6
  · intro msg2 hnr2
    simp only [turn_state, travel_agent_turn, pre_state, hnr2, if_false,
      turn_core, process_user_response, advance_and_ask,
      run_travel_agent_with_input]
    norm_num

/-- C1 witness: the amended behaviour at the concrete step-5 session — the
summary turn lands on step 6 and the next turn emits the feedback prompt
at step 7. -/
theorem fifth_answer_turn_emits_summary_at_step6_witness :
    (turn_state env0 c1_state "Берлин").current_goal = 6 ∧
    (turn_state env0 c1_state "Берлин").user_responses.departure_city =
      some "Берлин" ∧
    (turn_state env0 (turn_state env0 c1_state "Берлин") "ок").current_goal = 7 ∧
    (travel_agent_turn env0 (turn_state env0 c1_state "Берлин") "ок").2.1 =
      [⟨"user", "continue"⟩, ⟨"assistant", ask_user_feedback⟩] := by
  have h := fifth_answer_turn_emits_summary_at_step6 env0 c1_state "Берлин"
    rfl (by decide)
  have h2 := h.2.2.2.2.2.2.2.2.2 "ок" (by decide)
  exact ⟨h.1, h.2.1, h2.1, h2.2⟩

/-- C3 witness: a concrete classification obtained through the
specification equivalences — `здорово` has one positive and no negative
keyword occurrence, hence classifies as positive. -/
theorem analyze_feedback_sentiment_spec_witness :
    analyze_feedback_sentiment "здорово" = "positive" :=
  (analyze_feedback_sentiment_spec "здорово").1.mpr (by decide)
